import Mathlib

/-!
Verification of the task-management web application (frontend stores, API
clients, WebSocket service and derived statistics) against its
natural-language specification.

The TypeScript sources are embedded shallowly: pure helpers become Lean
functions, the zustand stores become explicit state-passing functions whose
network calls are abstracted as `Except`-valued results, JSON payloads are
modelled as `String`, and timestamps cross the embedding as `String` values
exactly as they cross the wire in the application.
-/

namespace TaskApp

/-! ## Status / priority helpers (`src/frontend/src/store/taskStore.ts`) -/

/-- Embeds `normalizeStatus`: the TS function looks the status up in a
mapping object (`todo`/`pending` ↦ `a_fazer`, `in_progress` ↦ `em_progresso`,
`done` ↦ `concluida`, `cancelled` ↦ `cancelada`) and falls back to the input
string when the key is absent. -/
def normalizeStatus (status : String) : String :=
  if status = "todo" then "a_fazer"
  else if status = "pending" then "a_fazer"
  else if status = "in_progress" then "em_progresso"
  else if status = "done" then "concluida"
  else if status = "cancelled" then "cancelada"
  else status

/-- Embeds `normalizePriority` (`low` ↦ `baixa`, `medium` ↦ `media`,
`high` ↦ `alta`, `urgent` ↦ `urgente`, otherwise identity). -/
def normalizePriority (priority : String) : String :=
  if priority = "low" then "baixa"
  else if priority = "medium" then "media"
  else if priority = "high" then "alta"
  else if priority = "urgent" then "urgente"
  else priority

/-- `isStatusDone` from the task store. -/
def isStatusDone (status : String) : Bool :=
  status = "done" || status = "concluida"

/-- `isStatusCancelled` from the task store. -/
def isStatusCancelled (status : String) : Bool :=
  status = "cancelled" || status = "cancelada"

/-- `isStatusInProgress` from the task store. -/
def isStatusInProgress (status : String) : Bool :=
  status = "in_progress" || status = "em_progresso"

/-- `isStatusTodo` from the task store. -/
def isStatusTodo (status : String) : Bool :=
  status = "todo" || status = "a_fazer" || status = "pending"

/-- `isPriorityHigh` from the task store. -/
def isPriorityHigh (priority : String) : Bool :=
  priority = "high" || priority = "alta"

/-- `isPriorityUrgent` from the task store. -/
def isPriorityUrgent (priority : String) : Bool :=
  priority = "urgent" || priority = "urgente"

/-- `isPriorityMedium` from the task store. -/
def isPriorityMedium (priority : String) : Bool :=
  priority = "medium" || priority = "media"

/-- `isPriorityLow` from the task store. -/
def isPriorityLow (priority : String) : Bool :=
  priority = "low" || priority = "baixa"

/-! ## The `Task` interface (`taskStore.ts`) -/

/-- The `Task` interface of the frontend store. JSON-valued fields
(`metadata`, `gpt_response`) are modelled as opaque strings; numeric fields
keep their types; optional fields become `Option`. -/
structure Task where
  id : String
  user_id : String
  project_id : Option String
  parent_task_id : Option String
  title : String
  description : Option String
  status : String
  priority : String
  due_date : Option String
  estimated_duration : Option Nat
  actual_duration : Option Nat
  completed_at : Option String
  tags : List String
  metadata : Option String
  natural_language_input : Option String
  gpt_response : Option String
  created_at : Option String
  updated_at : Option String
  deriving Repr, DecidableEq

/-- A task with every optional field empty, used to build concrete witnesses
concisely. -/
def blankTask : Task :=
  { id := "", user_id := "", project_id := none, parent_task_id := none,
    title := "", description := none, status := "pending",
    priority := "media", due_date := none, estimated_duration := none,
    actual_duration := none, completed_at := none, tags := [],
    metadata := none, natural_language_input := none, gpt_response := none,
    created_at := none, updated_at := none }

/-! ## The zustand task store (`useTaskStore`)

Each store action performs one API call and then mutates the store.  The
embedding passes the API call's outcome in as an `Except` value: `.ok`
carries what `await` would have returned, `.error` carries the message the
catch-branch stores (`error.response?.data?.detail || <fallback text>`,
already resolved to a string here). -/

/-- The observable fields of the zustand store state. -/
structure TaskState where
  tasks : List Task
  total : Nat
  isLoading : Bool
  error : Option String
  deriving Repr, DecidableEq

/-- `useTaskStore.fetchTasks`: sets loading, then on success replaces
`tasks`/`total` from the response and on failure records only the error
message. -/
def fetchTasks (st : TaskState) (result : Except String (List Task × Nat)) :
    TaskState :=
  let st1 := { st with isLoading := true, error := none }
  match result with
  | Except.ok (ts, tot) =>
      { st1 with tasks := ts, total := tot, isLoading := false }
  | Except.error e => { st1 with error := some e, isLoading := false }

/-- `useTaskStore.createTask` (natural-language entry): on success appends
the created task, on failure records the error and rethrows (the thrown
exception does not touch the store, so only the returned state matters
here). -/
def createTask (st : TaskState) (result : Except String Task) : TaskState :=
  let st1 := { st with isLoading := true, error := none }
  match result with
  | Except.ok task =>
      { st1 with tasks := st1.tasks ++ [task], isLoading := false }
  | Except.error e => { st1 with error := some e, isLoading := false }

/-- `useTaskStore.createTaskStructured`: identical store mutation to
`createTask`, reached through the structured API endpoint. -/
def createTaskStructured (st : TaskState) (result : Except String Task) :
    TaskState :=
  let st1 := { st with isLoading := true, error := none }
  match result with
  | Except.ok task =>
      { st1 with tasks := st1.tasks ++ [task], isLoading := false }
  | Except.error e => { st1 with error := some e, isLoading := false }

/-- `useTaskStore.updateTask`: on success replaces the task whose `id`
matches `taskId` by the server's response, on failure records the error. -/
def updateTaskStore (st : TaskState) (taskId : String)
    (result : Except String Task) : TaskState :=
  let st1 := { st with isLoading := true, error := none }
  match result with
  | Except.ok updatedTask =>
      { st1 with
        tasks := st1.tasks.map fun t => if t.id = taskId then updatedTask else t,
        isLoading := false }
  | Except.error e => { st1 with error := some e, isLoading := false }

/-- `useTaskStore.deleteTask`: on success filters the task out, on failure
records the error. -/
def deleteTaskStore (st : TaskState) (taskId : String)
    (result : Except String Unit) : TaskState :=
  let st1 := { st with isLoading := true, error := none }
  match result with
  | Except.ok _ =>
      { st1 with tasks := st1.tasks.filter (fun t => t.id ≠ taskId),
                 isLoading := false }
  | Except.error e => { st1 with error := some e, isLoading := false }

/-! ## WebSocket merge handlers (`useTaskStore.setupWebSocket`) -/

/-- Handler registered for `task_created`: appends the pushed task. -/
def onTaskCreated (st : TaskState) (task : Task) : TaskState :=
  { st with tasks := st.tasks ++ [task] }

/-- Handler registered for `task_updated`: maps over the list, replacing the
entry whose `id` equals the pushed task's `id`. -/
def onTaskUpdated (st : TaskState) (task : Task) : TaskState :=
  { st with tasks := st.tasks.map fun t => if t.id = task.id then task else t }

/-- Handler registered for `task_deleted`: removes the task with the pushed
id. -/
def onTaskDeleted (st : TaskState) (deletedId : String) : TaskState :=
  { st with tasks := st.tasks.filter fun t => t.id ≠ deletedId }

/-! ## `ProgressStats` derived statistics
(`src/frontend/src/components/ProgressStats.tsx`, the `stats` memo)

Each count is one `tasks.filter(...).length` line of the memo, using the
component's own comparisons (raw `===` / `!==` against English literals).
The time-dependent entries (`overdue`, `completedToday`, `avgDuration`) are
not needed by any claim and are not embedded. -/

namespace ProgressStats

/-- `completed = tasks.filter(t => t.status === 'done').length`. -/
def completed (tasks : List Task) : Nat :=
  (tasks.filter fun t => t.status = "done").length

/-- `inProgress = tasks.filter(t => t.status === 'in_progress').length`. -/
def inProgress (tasks : List Task) : Nat :=
  (tasks.filter fun t => t.status = "in_progress").length

/-- `todo = tasks.filter(t => t.status === 'todo').length`. -/
def todo (tasks : List Task) : Nat :=
  (tasks.filter fun t => t.status = "todo").length

/-- `cancelled = tasks.filter(t => t.status === 'cancelled').length`. -/
def cancelled (tasks : List Task) : Nat :=
  (tasks.filter fun t => t.status = "cancelled").length

/-- `urgent = tasks.filter(t => t.priority === 'urgent' && t.status !== 'done'
&& t.status !== 'cancelled').length`. -/
def urgent (tasks : List Task) : Nat :=
  (tasks.filter fun t =>
    t.priority = "urgent" && t.status ≠ "done" && t.status ≠ "cancelled").length

/-- `high`, analogous to `urgent`. -/
def high (tasks : List Task) : Nat :=
  (tasks.filter fun t =>
    t.priority = "high" && t.status ≠ "done" && t.status ≠ "cancelled").length

/-- `medium`, analogous to `urgent`. -/
def medium (tasks : List Task) : Nat :=
  (tasks.filter fun t =>
    t.priority = "medium" && t.status ≠ "done" && t.status ≠ "cancelled").length

/-- `low`, analogous to `urgent`. -/
def low (tasks : List Task) : Nat :=
  (tasks.filter fun t =>
    t.priority = "low" && t.status ≠ "done" && t.status ≠ "cancelled").length

end ProgressStats

/-! ## `ListView` sort key (`src/unnamed/part_002`, `priorityValue`) -/

namespace ListView

/-- `priorityValue`: object lookup `{urgent: 4, high: 3, medium: 2, low: 1}`
with `|| 0` fallback — any other string (including every Portuguese alias)
gets 0. -/
def priorityValue (priority : String) : Nat :=
  if priority = "urgent" then 4
  else if priority = "high" then 3
  else if priority = "medium" then 2
  else if priority = "low" then 1
  else 0

end ListView

/-! ## HTTP clients and the 401-refresh interceptor
(`src/frontend/src/services/api.ts` in `src/unnamed/part_007`, and the
separate clients in `src/frontend/src/services/aiApi.ts` /
`settingsApi.ts` in `src/unnamed/part_008`). -/

/-- The token-related browser state the interceptors read and write:
`localStorage` tokens plus whether `window.location` was sent to `/login`. -/
structure ClientAuthState where
  accessToken : Option String
  refreshToken : Option String
  redirectedToLogin : Bool
  deriving Repr, DecidableEq

/-- Embeds the response interceptor of `ApiService`'s axios instance.

Inputs: the browser state, the failed response's HTTP status, the
`_retry` marker already present on the request config, and the outcome of
`POST /api/auth/refresh` (consulted only when the code actually issues that
call).  Output: the browser state afterwards and the number of times the
original request is silently re-issued (`return this.api(originalRequest)`
counts 1; falling through to `Promise.reject` counts 0). -/
def apiServiceOnResponseError (st : ClientAuthState) (status : Nat)
    (alreadyRetried : Bool) (refreshResult : Except String (String × String)) :
    ClientAuthState × Nat :=
  if status = 401 && !alreadyRetried then
    match st.refreshToken with
    | some _ =>
        match refreshResult with
        | Except.ok (access, refresh) =>
            ({ st with accessToken := some access, refreshToken := some refresh }, 1)
        | Except.error _ =>
            ({ accessToken := none, refreshToken := none,
               redirectedToLogin := true }, 0)
    | none => (st, 0)
  else (st, 0)

/-- Embeds the response handling of the `aiApi.ts` / `settingsApi.ts`
`apiClient`: those axios instances register only a request interceptor, so a
failed response is rejected as-is — the browser state is untouched and the
request is never re-issued. -/
def aiApiOnResponseError (st : ClientAuthState) (_status : Nat) :
    ClientAuthState × Nat :=
  (st, 0)

/-! ## `WebSocketService` (`src/frontend/src/services/websocket.ts` in
`src/frontend/src/services/aiApi.ts` bundle, lines 173-270)

The service is a small state machine: `onclose` schedules a reconnect on a
fixed 5000 ms timer (if none is pending), the timer fires `connect`, and
`onopen` clears the timer.  `fetchCalls` counts how many times any of these
transitions triggers a full task-list refetch; no transition in the source
calls `fetchTasks`, which is exactly what claim C8 is about. -/

/-- `reconnectInterval: number = 5000`. -/
def reconnectInterval : Nat := 5000

structure WsState where
  connected : Bool
  reconnectTimerPending : Bool
  fetchCalls : Nat
  deriving Repr, DecidableEq

/-- `ws.onclose`: logs and calls `scheduleReconnect`, which arms the timer
unless one is already pending. No refetch. -/
def wsOnClose (s : WsState) : WsState :=
  if s.reconnectTimerPending then { s with connected := false }
  else { s with connected := false, reconnectTimerPending := true }

/-- The reconnect timer firing: calls `connect(token)` again (the timer
slot stays occupied until `onopen` clears it). No refetch. -/
def wsReconnectTimerFires (s : WsState) : WsState := s

/-- `ws.onopen` on the successful reconnect attempt: clears the pending
timer. Nothing else — in particular no task-list refetch and no event
delivered to the store's listeners. -/
def wsOnOpen (s : WsState) : WsState :=
  { s with connected := true, reconnectTimerPending := false }

/-! ## `ChatAssistant.executeAction`
(`src/frontend/src/components/ChatAssistant.tsx`) -/

/-- A chat transcript entry (the component's `Message`, reduced to the
fields `executeAction` writes). -/
structure ChatMsg where
  role : String
  content : String
  timestamp : String
  deriving Repr, DecidableEq

/-- The component's `ActionButton` (`data` is an opaque JSON payload). -/
structure ActionButton where
  label : String
  action : String
  payload : Option String
  deriving Repr, DecidableEq

/-- The state `executeAction` can observe or affect: the transcript, the
loading flag, and the task set behind `aiApi.executeChatAction` (mutated
only through that server call). -/
structure ChatClientState where
  messages : List ChatMsg
  loading : Bool
  tasks : List Task
  deriving Repr, DecidableEq

/-- The literal acknowledgement `executeAction` appends on cancel. -/
def cancelAckText : String := "❌ Ação cancelada."

/-- Embeds `executeAction`.  `server` stands for
`aiApi.executeChatAction` plus whatever task mutation it performs: it maps
the button and the pre-call state to the post-call state and the response
message (or a thrown error).  The `action === 'cancel'` branch returns
before `setLoading(true)` and before any server interaction, appending only
the acknowledgement message. -/
def executeAction
    (server : ActionButton → ChatClientState → ChatClientState × Except String String)
    (st : ChatClientState) (button : ActionButton) (ts : String) :
    ChatClientState :=
  if button.action = "cancel" then
    { st with messages :=
        st.messages ++ [{ role := "assistant", content := cancelAckText, timestamp := ts }] }
  else
    let stLoading := { st with loading := true }
    let res := server button stLoading
    match res.2 with
    | Except.ok msg =>
        { res.1 with
          messages := res.1.messages ++ [{ role := "assistant", content := msg, timestamp := ts }],
          loading := false }
    | Except.error e =>
        { res.1 with
          messages := res.1.messages ++
            [{ role := "assistant", content := "❌ Erro ao executar ação: " ++ e, timestamp := ts }],
          loading := false }

/-! ## `SubtaskSuggestionsModal`
(`src/frontend/src/components/SubtaskSuggestionsModal.tsx`) -/

/-- The `SubtaskSuggestion` payload of `aiApi.suggestSubtasks`. -/
structure SubtaskSuggestion where
  title : String
  description : String
  estimated_duration : Nat
  deriving Repr, DecidableEq

/-- The modal's local state (`useState` hooks). -/
structure ModalState where
  suggestions : List SubtaskSuggestion
  selected : List Nat
  isLoading : Bool
  isCreating : Bool
  error : Option String
  deriving Repr, DecidableEq

/-- The error text `loadSuggestions` stores when the AI call throws. -/
def suggestionsErrorText : String :=
  "Não foi possível gerar sugestões de subtarefas. Tente novamente."

/-- Embeds `loadSuggestions`: sets loading and clears the error, then on
success stores the (possibly empty) suggestion list with every index
selected, and on a thrown error stores only the error text. -/
def loadSuggestions (st : ModalState)
    (result : Except String (List SubtaskSuggestion)) : ModalState :=
  let st1 := { st with isLoading := true, error := none }
  match result with
  | Except.ok subtasks =>
      { st1 with suggestions := subtasks,
                 selected := List.range subtasks.length,
                 isLoading := false }
  | Except.error _ =>
      { st1 with error := some suggestionsErrorText, isLoading := false }

/-- The four mutually exclusive bodies the modal's JSX can render. -/
inductive ModalView where
  | loadingSpinner
  | errorBox
  | noSuggestions
  | suggestionList
  deriving Repr, DecidableEq

/-- Embeds the render chain
`isLoading ? spinner : error ? errorBox : suggestions.length === 0 ?
noSuggestions : list`. -/
def renderModal (st : ModalState) : ModalView :=
  if st.isLoading then ModalView.loadingSpinner
  else if st.error.isSome then ModalView.errorBox
  else if st.suggestions.length = 0 then ModalView.noSuggestions
  else ModalView.suggestionList

/-- The suggestion-loading step as seen from the whole client
(`NaturalLanguageInput` opens the modal only after `createTask` resolved, so
the store already contains the created task): `loadSuggestions` touches only
the modal's own hooks, never the task store. -/
def suggestionStep (store : TaskState) (modal : ModalState)
    (result : Except String (List SubtaskSuggestion)) :
    TaskState × ModalState :=
  (store, loadSuggestions modal result)

/-! ## Backend status update (modelled)

The repository's backend task handler is not under `src/` (only its client
caller `useTaskStore.updateTask` and the `tasks` schema are), so the piece
that maintains `completed_at` is modelled from the spec. -/

/-- Modelled from the spec: the backend `updateTask` status handling, which
is absent from `src/` — «changing status to the "done" equivalence class
sets completion timestamp; the reverse (leaving done) should clear it»
(§4.2), with end-to-end scenario C fixing the two directions.  A status
change entering the done class stamps `completed_at := now`, one leaving the
class clears it, and one staying on the same side of the boundary leaves it
untouched. -/
def applyStatusUpdate (task : Task) (newStatus : String) (now : String) :
    Task :=
  if isStatusDone newStatus && !isStatusDone task.status then
    { task with status := newStatus, completed_at := some now }
  else if !isStatusDone newStatus && isStatusDone task.status then
    { task with status := newStatus, completed_at := none }
  else
    { task with status := newStatus }

/-! ## Concrete sample data for witnesses and counterexamples -/

/-- A finished task stored with the English alias. -/
def doneTaskEn : Task := { blankTask with id := "t-en", status := "done" }

/-- The same logical task stored with the Portuguese alias. -/
def doneTaskPt : Task := { blankTask with id := "t-pt", status := "concluida" }

/-- A pending task with the English `medium` priority. -/
def mediumTaskEn : Task := { blankTask with id := "p-en", status := "todo", priority := "medium" }

/-- A pending task with the Portuguese `media` priority (the database
default). -/
def mediumTaskPt : Task := { blankTask with id := "p-pt", status := "todo", priority := "media" }

/-- A task pushed over the WebSocket whose id is in no local list. -/
def pushedTask : Task := { blankTask with id := "ws-1", status := "a_fazer", title := "pushed" }

/-- An empty store state. -/
def emptyTaskState : TaskState :=
  { tasks := [], total := 0, isLoading := false, error := none }

/-- A chat client state holding one task, used by the C6 witness. -/
def chatState0 : ChatClientState :=
  { messages := [], loading := false, tasks := [doneTaskEn] }

/-- A deliberately destructive stand-in for `aiApi.executeChatAction` that
would wipe every task if it were ever consulted; the C6 witness shows the
cancel branch never reaches it. -/
def wipingServer (_button : ActionButton) (st : ChatClientState) :
    ChatClientState × Except String String :=
  ({ st with tasks := [] }, Except.ok "wiped")

/-- The cancel button as the chat UI builds it. -/
def cancelButton : ActionButton :=
  { label := "Cancelar", action := "cancel", payload := none }

/-! ## Theorems -/

/-- Claim C1 (code bug): the repository's own equivalence-class predicates
declare `urgent ≡ urgente` and `done ≡ concluida`, yet `ListView`'s
`priorityValue` sort key gives 4 to `urgent` but 0 to `urgente` (and so
also 0 to the database-default `media`), and `ProgressStats` compares
statuses and priorities by raw string equality against the English literals
only, counting a `concluida` task as not completed and a `media` task in no
priority bucket.  Derivations therefore do not yield the same result for a
task whichever alias it stores, contradicting the stated invariant. -/
theorem c1_alias_divergence :
    ListView.priorityValue "urgent" = 4 ∧
    ListView.priorityValue "urgente" = 0 ∧
    isPriorityUrgent "urgent" = true ∧
    isPriorityUrgent "urgente" = true ∧
    ProgressStats.completed [doneTaskEn] = 1 ∧
    ProgressStats.completed [doneTaskPt] = 0 ∧
    isStatusDone doneTaskEn.status = true ∧
    isStatusDone doneTaskPt.status = true ∧
    ProgressStats.medium [mediumTaskEn] = 1 ∧
    ProgressStats.medium [mediumTaskPt] = 0 ∧
    isPriorityMedium mediumTaskEn.priority = true ∧
    isPriorityMedium mediumTaskPt.priority = true := by
  decide

/-- Claim C2, counterexample: delivering `task_updated` for an id absent
from local state leaves the task list empty — the task is not added, so the
event is dropped rather than upserted. -/
theorem c2_counterexample :
    (onTaskUpdated emptyTaskState pushedTask).tasks = [] ∧
    pushedTask ∉ (onTaskUpdated emptyTaskState pushedTask).tasks := by
  decide

/-- A map that only rewrites entries carrying the pushed id is the identity
on a list containing no such entry. -/
theorem map_replace_id_of_absent (tasks : List Task) (task : Task)
    (h : ∀ t ∈ tasks, t.id ≠ task.id) :
    (tasks.map fun t => if t.id = task.id then task else t) = tasks := by
  induction tasks with
  | nil => rfl
  | cons hd tl ih =>
      simp only [List.map_cons, List.cons.injEq]
      constructor
      · exact if_neg (h hd (by simp))
      · exact ih fun t ht => h t (by simp [ht])

/-- Claim C2 as amended: on `task_updated` the client replaces the stored
task whose id matches the payload; an event for an id not currently present
is tolerated without error but ignored — the local state is left exactly
unchanged, the task is not added. -/
theorem c2_amended_replace_or_ignore (st : TaskState) (task : Task) :
    (onTaskUpdated st task).tasks
      = (st.tasks.map fun t => if t.id = task.id then task else t) ∧
    ((∀ t ∈ st.tasks, t.id ≠ task.id) → onTaskUpdated st task = st) := by
  constructor
  · rfl
  · intro h
    show { st with tasks := _ } = st
    rw [map_replace_id_of_absent st.tasks task h]

/-- Witness for C2: replaying the amended theorem on a concrete one-task
store — the present id is replaced, and a foreign-id event leaves the
store untouched. -/
theorem c2_amended_witness :
    (onTaskUpdated { emptyTaskState with tasks := [doneTaskEn] } pushedTask)
      = { emptyTaskState with tasks := [doneTaskEn] } :=
  (c2_amended_replace_or_ignore
      { emptyTaskState with tasks := [doneTaskEn] } pushedTask).2
    (by decide)

/-- Claim C3, counterexample: a request issued through the `aiApi.ts` /
`settingsApi.ts` client that fails with HTTP 401 is retried zero times —
that axios instance registers no response interceptor — contradicting
"exactly one silent retry, never zero for such a request". -/
theorem c3_counterexample :
    (aiApiOnResponseError
        { accessToken := some "acc", refreshToken := some "ref",
          redirectedToLogin := false } 401).2 = 0 ∧
    ¬ (aiApiOnResponseError
        { accessToken := some "acc", refreshToken := some "ref",
          redirectedToLogin := false } 401).2 = 1 := by
  decide

/-- Claim C3 as amended: only requests through `ApiService`'s axios
instance take part in the refresh flow — a first 401 with a stored refresh
token is retried exactly once after a successful refresh; when the refresh
itself fails, both tokens are cleared and the client redirects to login
(with no retry); a 401 with no stored refresh token is rejected as-is
(no retry, state untouched); an already-retried request is never retried
again; and requests through the separate AI/settings client are never
auto-retried. -/
theorem c3_amended_retry_policy (st : ClientAuthState)
    (access refresh e : String) (status : Nat)
    (anyRefresh : Except String (String × String)) :
    (st.refreshToken.isSome = true →
      apiServiceOnResponseError st 401 false (Except.ok (access, refresh))
        = ({ st with accessToken := some access, refreshToken := some refresh }, 1)) ∧
    (st.refreshToken.isSome = true →
      apiServiceOnResponseError st 401 false (Except.error e)
        = ({ accessToken := none, refreshToken := none,
             redirectedToLogin := true }, 0)) ∧
    (st.refreshToken = none →
      apiServiceOnResponseError st 401 false anyRefresh = (st, 0)) ∧
    (apiServiceOnResponseError st 401 true anyRefresh).2 = 0 ∧
    aiApiOnResponseError st status = (st, 0) := by
  refine ⟨?_, ?_, ?_, ?_, rfl⟩
  · intro h
    cases hr : st.refreshToken with
    | none => rw [hr] at h; cases h
    | some r => simp [apiServiceOnResponseError, hr]
  · intro h
    cases hr : st.refreshToken with
    | none => rw [hr] at h; cases h
    | some r => simp [apiServiceOnResponseError, hr]
  · intro h
    simp [apiServiceOnResponseError, h]
  · simp [apiServiceOnResponseError]

/-- Witness for C3 as amended, at concrete browser states: one retry after
a successful refresh, token clearing plus redirect after a failed one, and
no retry at all when no refresh token is stored. -/
theorem c3_amended_witness :
    apiServiceOnResponseError
        { accessToken := some "old-a", refreshToken := some "old-r",
          redirectedToLogin := false } 401 false (Except.ok ("new-a", "new-r"))
      = ({ accessToken := some "new-a", refreshToken := some "new-r",
           redirectedToLogin := false }, 1) ∧
    apiServiceOnResponseError
        { accessToken := some "old-a", refreshToken := some "old-r",
          redirectedToLogin := false } 401 false (Except.error "expired")
      = ({ accessToken := none, refreshToken := none,
           redirectedToLogin := true }, 0) ∧
    apiServiceOnResponseError
        { accessToken := some "old-a", refreshToken := none,
          redirectedToLogin := false } 401 false (Except.ok ("new-a", "new-r"))
      = ({ accessToken := some "old-a", refreshToken := none,
           redirectedToLogin := false }, 0) :=
  ⟨(c3_amended_retry_policy
      { accessToken := some "old-a", refreshToken := some "old-r",
        redirectedToLogin := false } "new-a" "new-r" "expired" 401
      (Except.error "expired")).1 (by decide),
   (c3_amended_retry_policy
      { accessToken := some "old-a", refreshToken := some "old-r",
        redirectedToLogin := false } "new-a" "new-r" "expired" 401
      (Except.error "expired")).2.1 (by decide),
   (c3_amended_retry_policy
      { accessToken := some "old-a", refreshToken := none,
        redirectedToLogin := false } "new-a" "new-r" "expired" 401
      (Except.ok ("new-a", "new-r"))).2.2.1 rfl⟩

/-- Claim C4: the equivalence-class predicates accept both locale aliases
of their value — `isStatusDone` holds for `done` and `concluida`,
`isStatusCancelled` for `cancelled` and `cancelada`, `isStatusInProgress`
for `in_progress` and `em_progresso`, `isStatusTodo` for `todo`, `a_fazer`
and `pending`, and each `isPriority*` for the English and the Portuguese
alias of its priority; since the predicates depend only on the stored
string, any two tasks storing aliases of one logical value satisfy the same
predicates. -/
theorem c4_predicates_accept_both_aliases :
    (isStatusDone "done" = true ∧ isStatusDone "concluida" = true) ∧
    (isStatusCancelled "cancelled" = true ∧ isStatusCancelled "cancelada" = true) ∧
    (isStatusInProgress "in_progress" = true ∧ isStatusInProgress "em_progresso" = true) ∧
    (isStatusTodo "todo" = true ∧ isStatusTodo "a_fazer" = true ∧ isStatusTodo "pending" = true) ∧
    (isPriorityUrgent "urgent" = true ∧ isPriorityUrgent "urgente" = true) ∧
    (isPriorityHigh "high" = true ∧ isPriorityHigh "alta" = true) ∧
    (isPriorityMedium "medium" = true ∧ isPriorityMedium "media" = true) ∧
    (isPriorityLow "low" = true ∧ isPriorityLow "baixa" = true) := by
  decide

/-- Claim C5 (backend handler modelled from the spec): a status update
entering the done equivalence class sets `completed_at` to the current
timestamp, one leaving the class clears it to `none`, and one that does not
cross the boundary leaves `completed_at` exactly as it was, while the
status itself always takes the new value. -/
theorem c5_completed_at_follows_done (task : Task) (newStatus now : String) :
    (isStatusDone task.status = false → isStatusDone newStatus = true →
      (applyStatusUpdate task newStatus now).completed_at = some now) ∧
    (isStatusDone task.status = true → isStatusDone newStatus = false →
      (applyStatusUpdate task newStatus now).completed_at = none) ∧
    (isStatusDone newStatus = isStatusDone task.status →
      (applyStatusUpdate task newStatus now).completed_at = task.completed_at) ∧
    (applyStatusUpdate task newStatus now).status = newStatus := by
  cases hOld : isStatusDone task.status <;>
    cases hNew : isStatusDone newStatus <;>
      simp [applyStatusUpdate, hOld, hNew]

/-- Witness for C5, replaying end-to-end scenario C: `a_fazer` →
`concluida` stamps `completed_at`; a further update to `em_progresso`
clears it again. -/
theorem c5_scenario_c_witness :
    (applyStatusUpdate { blankTask with status := "a_fazer" } "concluida" "2024-05-01T10:00:00Z").completed_at
      = some "2024-05-01T10:00:00Z" ∧
    (applyStatusUpdate
        (applyStatusUpdate { blankTask with status := "a_fazer" } "concluida" "2024-05-01T10:00:00Z")
        "em_progresso" "2024-05-01T11:00:00Z").completed_at
      = none :=
  ⟨(c5_completed_at_follows_done { blankTask with status := "a_fazer" }
      "concluida" "2024-05-01T10:00:00Z").1 (by decide) (by decide),
   (c5_completed_at_follows_done
      (applyStatusUpdate { blankTask with status := "a_fazer" } "concluida" "2024-05-01T10:00:00Z")
      "em_progresso" "2024-05-01T11:00:00Z").2.1 (by decide) (by decide)⟩

/-- Claim C6: executing the chat action `cancel` is a pure acknowledgement —
whatever the server would do and whatever the prior state, the resulting
state is the prior state with exactly one assistant acknowledgement message
appended, so in particular the task set is unchanged. -/
theorem c6_cancel_is_pure_ack
    (server : ActionButton → ChatClientState → ChatClientState × Except String String)
    (st : ChatClientState) (button : ActionButton) (ts : String)
    (h : button.action = "cancel") :
    executeAction server st button ts
      = { st with messages := st.messages
            ++ [{ role := "assistant", content := cancelAckText, timestamp := ts }] } ∧
    (executeAction server st button ts).tasks = st.tasks := by
  constructor
  · simp [executeAction, h]
  · simp [executeAction, h]

/-- Witness for C6: cancelling against a server stub that would wipe every
task — the task set survives untouched and the acknowledgement is
appended. -/
theorem c6_cancel_witness :
    executeAction wipingServer chatState0 cancelButton "2024-05-01T12:00:00Z"
      = { chatState0 with messages :=
            [{ role := "assistant", content := cancelAckText,
               timestamp := "2024-05-01T12:00:00Z" }] } ∧
    (executeAction wipingServer chatState0 cancelButton "2024-05-01T12:00:00Z").tasks
      = chatState0.tasks :=
  ⟨(c6_cancel_is_pure_ack wipingServer chatState0 cancelButton
      "2024-05-01T12:00:00Z" rfl).1,
   (c6_cancel_is_pure_ack wipingServer chatState0 cancelButton
      "2024-05-01T12:00:00Z" rfl).2⟩

/-- Claim C7: an empty suggestion list is a valid non-error outcome — the
modal renders the "no suggestions" body with its error hook still `none`;
the error body is rendered exactly when the suggestion call itself threw;
and the suggestion step never touches the task store, so a failure cannot
undo the already-completed task creation. -/
theorem c7_empty_suggestions_not_error (st : ModalState)
    (result : Except String (List SubtaskSuggestion)) (store : TaskState) :
    renderModal (loadSuggestions st (Except.ok [])) = ModalView.noSuggestions ∧
    (loadSuggestions st (Except.ok [])).error = none ∧
    (renderModal (loadSuggestions st result) = ModalView.errorBox
      ↔ ∃ e, result = Except.error e) ∧
    (suggestionStep store st result).1 = store := by
  refine ⟨by simp [renderModal, loadSuggestions], rfl, ?_, rfl⟩
  cases result with
  | ok subtasks =>
      constructor
      · intro h
        by_cases hlen : subtasks.length = 0 <;>
          simp [renderModal, loadSuggestions, hlen] at h
      · rintro ⟨e, he⟩
        cases he
  | error e => exact ⟨fun _ => ⟨e, rfl⟩, fun _ => by simp [renderModal, loadSuggestions]⟩

/-- Claim C8, counterexample: a full disconnect / timer / reconnect cycle
from a connected client that has never refetched ends reconnected with the
refetch counter still at zero — the reconnection is not followed by a
task-list refetch. -/
theorem c8_counterexample :
    (wsOnOpen (wsReconnectTimerFires (wsOnClose
        { connected := true, reconnectTimerPending := false, fetchCalls := 0 }))).connected
      = true ∧
    (wsOnOpen (wsReconnectTimerFires (wsOnClose
        { connected := true, reconnectTimerPending := false, fetchCalls := 0 }))).fetchCalls
      = 0 := by
  decide

/-- Claim C8 as amended: a disconnect arms the single reconnect timer with
its fixed 5000 ms interval and a successful reconnect clears it — but no
transition of the WebSocket service triggers a task-list refetch; after
reconnecting the client resumes on push events alone. -/
theorem c8_amended_reconnect_without_refetch (s : WsState) :
    (wsOnClose s).reconnectTimerPending = true ∧
    reconnectInterval = 5000 ∧
    (wsOnClose s).fetchCalls = s.fetchCalls ∧
    (wsReconnectTimerFires s).fetchCalls = s.fetchCalls ∧
    (wsOnOpen s).fetchCalls = s.fetchCalls ∧
    (wsOnOpen s).connected = true ∧
    (wsOnOpen s).reconnectTimerPending = false := by
  refine ⟨?_, rfl, ?_, rfl, rfl, rfl, rfl⟩ <;>
    · unfold wsOnClose
      by_cases h : s.reconnectTimerPending <;> simp [h]

/-- Claim C9: `normalizeStatus` and `normalizePriority` are idempotent, and
every equivalence-class predicate is invariant under the corresponding
normalization, for every input string. -/
theorem c9_normalization_idempotent_and_invariant (s : String) :
    normalizeStatus (normalizeStatus s) = normalizeStatus s ∧
    normalizePriority (normalizePriority s) = normalizePriority s ∧
    isStatusDone (normalizeStatus s) = isStatusDone s ∧
    isStatusTodo (normalizeStatus s) = isStatusTodo s ∧
    isStatusInProgress (normalizeStatus s) = isStatusInProgress s ∧
    isStatusCancelled (normalizeStatus s) = isStatusCancelled s ∧
    isPriorityUrgent (normalizePriority s) = isPriorityUrgent s ∧
    isPriorityHigh (normalizePriority s) = isPriorityHigh s ∧
    isPriorityMedium (normalizePriority s) = isPriorityMedium s ∧
    isPriorityLow (normalizePriority s) = isPriorityLow s := by
  by_cases h1 : s = "todo"
  · subst h1; decide
  by_cases h2 : s = "pending"
  · subst h2; decide
  by_cases h3 : s = "in_progress"
  · subst h3; decide
  by_cases h4 : s = "done"
  · subst h4; decide
  by_cases h5 : s = "cancelled"
  · subst h5; decide
  by_cases h6 : s = "low"
  · subst h6; decide
  by_cases h7 : s = "medium"
  · subst h7; decide
  by_cases h8 : s = "high"
  · subst h8; decide
  by_cases h9 : s = "urgent"
  · subst h9; decide
  have hs : normalizeStatus s = s := by
    simp [normalizeStatus, h1, h2, h3, h4, h5]
  have hp : normalizePriority s = s := by
    simp [normalizePriority, h6, h7, h8, h9]
  simp [hs, hp]

/-- Claim C10: every task-store action is atomic on error — when the
underlying API call fails, the resulting store state is exactly the prior
state with only `error` set and `isLoading` reset, so `tasks` and `total`
are untouched by a failed fetch, create, structured create, update or
delete. -/
theorem c10_store_atomic_on_error (st : TaskState) (e taskId : String) :
    fetchTasks st (Except.error e)
      = { st with error := some e, isLoading := false } ∧
    createTask st (Except.error e)
      = { st with error := some e, isLoading := false } ∧
    createTaskStructured st (Except.error e)
      = { st with error := some e, isLoading := false } ∧
    updateTaskStore st taskId (Except.error e)
      = { st with error := some e, isLoading := false } ∧
    deleteTaskStore st taskId (Except.error e)
      = { st with error := some e, isLoading := false } :=
  ⟨rfl, rfl, rfl, rfl, rfl⟩

end TaskApp
